import Mathlib

/-!
Verification development for the movie-graph ingestion program
(source file src/index.ts).

The program's per-row ingestion function addRowToGraph is embedded as a
pure function producing the ordered sequence of merge operations it
issues against the graph store, and the store itself is embedded as a
keyed map on which mergeNode and mergeRelationship act as idempotent
upserts.  The numeric field normalizers parseInt and parseDouble wrap
the JavaScript builtins Number.parseInt and Number.parseFloat, which are
modelled here over lists of characters.
-/

namespace MovieGraph

/-! ## JavaScript string-to-number parsing, modelled from Number.parseInt
and Number.parseFloat (radix-free call, as in the source). -/

/-- Whitespace skipped by the JavaScript numeric parsers (ASCII subset;
the source data never contains the exotic Unicode space separators). -/
def isJsWhitespace (c : Char) : Bool :=
  c = ' ' || c = '\t' || c = '\n' || c = '\r' || c = '\x0b' || c = '\x0c'

/-- Decimal value of a list of digit characters. -/
def digitsToNat (ds : List Char) : Nat :=
  ds.foldl (fun a c => a * 10 + (c.toNat - 48)) 0

def isHexDigitChar (c : Char) : Bool :=
  c.isDigit || ('a' ≤ c && c ≤ 'f') || ('A' ≤ c && c ≤ 'F')

def hexDigitVal (c : Char) : Nat :=
  if c.isDigit then c.toNat - 48
  else if 'a' ≤ c && c ≤ 'f' then c.toNat - 87
  else c.toNat - 55

/-- Hexadecimal value of a list of hex-digit characters. -/
def hexToNat (ds : List Char) : Nat :=
  ds.foldl (fun a c => a * 16 + hexDigitVal c) 0

/-- Number.parseInt(str) with no radix argument: skip whitespace, read an
optional sign, then either a 0x/0X-prefixed hexadecimal digit run or a
decimal digit run; the longest such prefix gives the value, and no digits
at all gives NaN (modelled as none). -/
def jsParseIntOpt (s : String) : Option Int :=
  let cs0 := s.toList.dropWhile isJsWhitespace
  let sign : Int := if cs0.head? = some '-' then -1 else 1
  let cs : List Char :=
    match cs0 with
    | '+' :: rest => rest
    | '-' :: rest => rest
    | _ => cs0
  match cs with
  | '0' :: x :: rest =>
    if x = 'x' || x = 'X' then
      let hs := rest.takeWhile isHexDigitChar
      if hs.isEmpty then none else some (sign * (hexToNat hs : Int))
    else
      some (sign * (digitsToNat (cs.takeWhile Char.isDigit) : Int))
  | _ =>
    let ds := cs.takeWhile Char.isDigit
    if ds.isEmpty then none else some (sign * (digitsToNat ds : Int))

/-- A JavaScript number as produced by Number.parseFloat on a parseable
input: a finite value (modelled exactly as a rational; the claims under
study never depend on binary rounding) or a signed infinity. -/
inductive JsFloat where
  | finite (q : ℚ)
  | posInf
  | negInf
deriving DecidableEq, Repr

/-- Number.parseFloat(str): skip whitespace, read an optional sign, then
the longest prefix matching Infinity, digits [. digits], or . digits,
with an optional exponent part that is only consumed when at least one
exponent digit follows; no valid prefix gives NaN (modelled as none). -/
def jsParseFloatOpt (s : String) : Option JsFloat :=
  let cs0 := s.toList.dropWhile isJsWhitespace
  let neg : Bool := cs0.head? = some '-'
  let cs : List Char :=
    match cs0 with
    | '+' :: rest => rest
    | '-' :: rest => rest
    | _ => cs0
  if List.isPrefixOf ('I' :: 'n' :: 'f' :: 'i' :: 'n' :: 'i' :: 't' :: 'y' :: []) cs then
    some (if neg then JsFloat.negInf else JsFloat.posInf)
  else
    let intDs := cs.takeWhile Char.isDigit
    let rest1 := cs.drop intDs.length
    let hasDot : Bool := rest1.head? = some '.'
    let fracDs := if hasDot then rest1.tail.takeWhile Char.isDigit else []
    if intDs.isEmpty && fracDs.isEmpty then none
    else
      let rest2 := if hasDot then rest1.tail.drop fracDs.length else rest1
      let expo : Int :=
        match rest2 with
        | e :: es =>
          if e = 'e' || e = 'E' then
            match es with
            | '+' :: ds =>
              let eds := ds.takeWhile Char.isDigit
              if eds.isEmpty then 0 else (digitsToNat eds : Int)
            | '-' :: ds =>
              let eds := ds.takeWhile Char.isDigit
              if eds.isEmpty then 0 else -(digitsToNat eds : Int)
            | ds =>
              let eds := ds.takeWhile Char.isDigit
              if eds.isEmpty then 0 else (digitsToNat eds : Int)
          else 0
        | [] => 0
      let mant : ℚ :=
        (digitsToNat intDs : ℚ) + (digitsToNat fracDs : ℚ) / ((10 : ℚ) ^ fracDs.length)
      let q : ℚ := mant * (10 : ℚ) ^ expo
      some (JsFloat.finite (if neg then -q else q))

/-- Source function parseInt: Number.parseInt with NaN coerced to 0. -/
def parseInt (str : String) : Int :=
  (jsParseIntOpt str).getD 0

/-- Source function parseDouble: Number.parseFloat with NaN coerced to 0. -/
def parseDouble (str : String) : JsFloat :=
  (jsParseFloatOpt str).getD (JsFloat.finite 0)

/-! ## Rows and JavaScript string helpers -/

/-- JavaScript String.prototype.split with the one-character separator
used by the source (a comma): keeps empty tokens, performs no trimming,
and maps the empty string to the singleton list of the empty string.
Implemented by structural recursion so that concrete instances reduce. -/
def splitCommaAux : List Char → List Char → List String
  | [], acc => [String.mk acc.reverse]
  | c :: cs, acc =>
    if c = ',' then String.mk acc.reverse :: splitCommaAux cs []
    else splitCommaAux cs (c :: acc)

def splitComma (s : String) : List String :=
  splitCommaAux s.toList []

/-- JavaScript truthiness of a string: every string except the empty
string is truthy. -/
def jsTruthy (s : String) : Bool := s ≠ ""

/-- The ImdbRow shape consumed by addRowToGraph.  The TypeScript type
lists further plot-join columns (Director, Release Year, Title,
Origin/Ethnicity, Cast, Genre, Wiki Page) that addRowToGraph never
reads; they are omitted here. -/
structure ImdbRow where
  tconst : String
  titleType : String
  primaryTitle : String
  originalTitle : String
  isAdult : String
  startYear : String
  endYear : String
  runtimeMinutes : String
  genres : String
  ordering : String
  category : String
  job : String
  characters : String
  nconst : String
  primaryName : String
  birthYear : String
  deathYear : String
  primaryProfession : String
  knownForTitles : String
  averageRating : String
  numVotes : String
  Plot : String
deriving DecidableEq, Repr

/-! ## Graph property values and merge operations -/

/-- A typed property value as sent to mergeNode. -/
inductive PropValue where
  | str (s : String)
  | int (n : Int)
  | dbl (x : JsFloat)
  | bool (b : Bool)
  | null
deriving DecidableEq, Repr

/-- One merge operation issued by addRowToGraph inside its unit of work.
The identifier property of a mergeNode call is the node key and is kept
as a separate field; the remaining properties are kept as a key-value
list in source order. -/
inductive Op where
  | mergeNode (nodeType : String) (identifier : String)
      (props : List (String × PropValue))
  | mergeRelationship (sourceType : String) (sourceId : String)
      (targetType : String) (targetId : String) (label : String)
deriving DecidableEq, Repr

/-- The property record of the mergeNode call for the Movie node,
field by field from the source: title, averageRating, numVotes, isAdult,
startYear, endYear (null when falsy or equal to the sentinel),
runtimeMinutes (null only when equal to the sentinel), summary (the Plot
column when truthy, otherwise the empty string). -/
def movieProps (row : ImdbRow) : List (String × PropValue) :=
  [ ("title", PropValue.str row.primaryTitle),
    ("averageRating", PropValue.dbl (parseDouble row.averageRating)),
    ("numVotes", PropValue.int (parseInt row.numVotes)),
    ("isAdult", PropValue.bool (row.isAdult == "1")),
    ("startYear", PropValue.int (parseInt row.startYear)),
    ("endYear",
      if jsTruthy row.endYear then
        if row.endYear ≠ "\\N" then PropValue.int (parseInt row.endYear)
        else PropValue.null
      else PropValue.null),
    ("runtimeMinutes",
      if row.runtimeMinutes ≠ "\\N" then PropValue.int (parseInt row.runtimeMinutes)
      else PropValue.null),
    ("summary",
      if jsTruthy row.Plot then PropValue.str row.Plot else PropValue.str "") ]

/-- The property record of the mergeNode call for the Person node. -/
def personProps (row : ImdbRow) : List (String × PropValue) :=
  [ ("name", PropValue.str row.primaryName),
    ("primaryProfession", PropValue.str row.primaryProfession),
    ("birthYear", PropValue.int (parseInt row.birthYear)),
    ("deathYear",
      if jsTruthy row.deathYear then
        if row.deathYear ≠ "\\N" then PropValue.int (parseInt row.deathYear)
        else PropValue.null
      else PropValue.null) ]

/-- The ordered sequence of merge operations addRowToGraph issues for one
row: the Movie node; per raw genre token a Genre node and an IN_GENRE
(genres) relationship; the Person node; the RELATED_TO (movies)
relationship; per raw known-for token a KNOWN_FOR (knownFor)
relationship with no node emit for its target; per raw profession token
a Profession node and a HAS_PROFESSION (professions) relationship. -/
def addRowToGraphOps (row : ImdbRow) : List Op :=
  [Op.mergeNode "Movie" row.tconst (movieProps row)]
  ++ (splitComma row.genres).flatMap (fun g =>
      [Op.mergeNode "Genre" g [],
       Op.mergeRelationship "Movie" row.tconst "Genre" g "genres"])
  ++ [Op.mergeNode "Person" row.nconst (personProps row)]
  ++ [Op.mergeRelationship "Person" row.nconst "Movie" row.tconst "movies"]
  ++ (splitComma row.knownForTitles).map (fun t =>
       Op.mergeRelationship "Person" row.nconst "Movie" t "knownFor")
  ++ (splitComma row.primaryProfession).flatMap (fun p =>
      [Op.mergeNode "Profession" p [],
       Op.mergeRelationship "Person" row.nconst "Profession" p "professions"])

/-! ## Observation helpers on an operation sequence -/

/-- Identifiers of the mergeNode operations of a given node type, in
emission order. -/
def nodeIdsOfType (t : String) (ops : List Op) : List String :=
  ops.filterMap (fun op =>
    match op with
    | Op.mergeNode t2 i _ => if t2 = t then some i else none
    | _ => none)

/-- Target identifiers of the mergeRelationship operations carrying a
given label, in emission order. -/
def relTargetsWithLabel (l : String) (ops : List Op) : List String :=
  ops.filterMap (fun op =>
    match op with
    | Op.mergeRelationship _ _ _ ti l2 => if l2 = l then some ti else none
    | _ => none)

/-- Node keys (type, identifier) created by a sequence of operations,
accumulated onto a starting list. -/
def seenAfter : List Op → List (String × String) → List (String × String)
  | [], seen => seen
  | Op.mergeNode t i _ :: rest, seen => seenAfter rest ((t, i) :: seen)
  | Op.mergeRelationship _ _ _ _ _ :: rest, seen => seenAfter rest seen

/-- Checks that every relationship operation is preceded by node
operations for both its endpoints (given the node keys already seen). -/
def relEndpointsOrdered : List Op → List (String × String) → Bool
  | [], _ => true
  | Op.mergeNode t i _ :: rest, seen => relEndpointsOrdered rest ((t, i) :: seen)
  | Op.mergeRelationship st si tt ti _ :: rest, seen =>
    (decide ((st, si) ∈ seen) && decide ((tt, ti) ∈ seen))
      && relEndpointsOrdered rest seen

/-- Like relEndpointsOrdered, but a relationship labelled knownFor is
only required to have its source endpoint already emitted. -/
def relEndpointsOrderedExceptKnownFor : List Op → List (String × String) → Bool
  | [], _ => true
  | Op.mergeNode t i _ :: rest, seen =>
    relEndpointsOrderedExceptKnownFor rest ((t, i) :: seen)
  | Op.mergeRelationship st si tt ti l :: rest, seen =>
    (decide ((st, si) ∈ seen) && (l == "knownFor" || decide ((tt, ti) ∈ seen)))
      && relEndpointsOrderedExceptKnownFor rest seen

/-! ## The graph store, modelled as the claims assume it: mergeNode and
mergeRelationship are idempotent upserts keyed by (type, identifier) and
by (sourceType, sourceId, targetType, targetId, label) respectively.
addRowToGraph always supplies the full property record of a node, so the
create-or-set model used here coincides with sparse-patch merging for
every operation this program issues. -/

structure GraphStore where
  nodes : String → String → Option (List (String × PropValue))
  rels : String → String → String → String → String → Bool

/-- One merge operation applied to the store. -/
def applyOp (s : GraphStore) : Op → GraphStore
  | Op.mergeNode t i p =>
    { s with nodes := fun t2 i2 => if t2 = t ∧ i2 = i then some p else s.nodes t2 i2 }
  | Op.mergeRelationship st si tt ti l =>
    { s with rels := fun a b c d e =>
        if (a, b, c, d, e) = (st, si, tt, ti, l) then true else s.rels a b c d e }

/-- A sequence of merge operations applied in order. -/
def applyOps (ops : List Op) (s : GraphStore) : GraphStore :=
  ops.foldl applyOp s

/-- Ingesting one row: the unit of work of addRowToGraph executed
against the store. -/
def ingestRow (s : GraphStore) (row : ImdbRow) : GraphStore :=
  applyOps (addRowToGraphOps row) s

/-- The property record written by the last mergeNode operation in the
sequence whose key matches (t, i), if any. -/
def lastNodeWrite : List Op → String → String → Option (List (String × PropValue))
  | [], _, _ => none
  | op :: rest, t, i =>
    match lastNodeWrite rest t i with
    | some p => some p
    | none =>
      match op with
      | Op.mergeNode t2 i2 p => if t = t2 ∧ i = i2 then some p else none
      | _ => none

/-- Whether some mergeRelationship operation in the sequence carries
exactly the given key. -/
def relWritten : List Op → String → String → String → String → String → Bool
  | [], _, _, _, _, _ => false
  | op :: rest, a, b, c, d, e =>
    relWritten rest a b c d e ||
      (match op with
       | Op.mergeRelationship st si tt ti l => decide ((a, b, c, d, e) = (st, si, tt, ti, l))
       | _ => false)

/-! ## The add-command batch loop of run, which awaits addRowToGraph on
each row in turn with no surrounding try/catch: a rejected row
propagates out of the loop.  The loop is embedded with the per-row
outcome abstracted as an Except value; the result records how many rows
were ingested before the loop either finished or aborted, and the
aborting error if any. -/

def runAddCount {ε : Type} (ingest : ImdbRow → Except ε Unit) :
    List ImdbRow → Nat × Option ε
  | [] => (0, none)
  | r :: rest =>
    match ingest r with
    | Except.ok _ =>
      let p := runAddCount ingest rest
      (p.1 + 1, p.2)
    | Except.error e => (0, some e)

/-- Whether an Except outcome is a success. -/
def isOkB {ε α : Type} : Except ε α → Bool
  | Except.ok _ => true
  | Except.error _ => false

/-! ## Concrete rows used by counterexamples and witnesses -/

/-- A well-formed baseline row. -/
def row0 : ImdbRow :=
  { tconst := "tt0000001", titleType := "movie", primaryTitle := "Example",
    originalTitle := "Example", isAdult := "0", startYear := "2000",
    endYear := "\\N", runtimeMinutes := "90", genres := "Drama",
    ordering := "1", category := "actor", job := "\\N",
    characters := "[\"Self\"]", nconst := "nm0000001",
    primaryName := "Some Actor", birthYear := "1970", deathYear := "\\N",
    primaryProfession := "actor", knownForTitles := "tt0000001",
    averageRating := "7.5", numVotes := "100", Plot := "A plot." }

/-- Row whose integer and double fields hold the NULL sentinel. -/
def rowSentinelNums : ImdbRow :=
  { row0 with startYear := "\\N", birthYear := "\\N", numVotes := "\\N",
              averageRating := "\\N", endYear := "\\N", deathYear := "\\N",
              runtimeMinutes := "\\N" }

/-- Row whose genres field holds the NULL sentinel. -/
def rowSentinelGenres : ImdbRow :=
  { row0 with genres := "\\N" }

/-- Row with a duplicated genre token. -/
def rowDupGenres : ImdbRow :=
  { row0 with genres := "Comedy,Drama,Comedy" }

/-- Row whose known-for list names a title other than its own. -/
def rowForeignKnownFor : ImdbRow :=
  { row0 with knownForTitles := "tt0000009" }

/-- Row whose string fields hold the NULL sentinel and whose Plot column
is absent (empty). -/
def rowSentinelStrings : ImdbRow :=
  { row0 with primaryTitle := "\\N", primaryName := "\\N", Plot := "" }

/-- Row with empty optional numeric fields. -/
def rowEmptyNums : ImdbRow :=
  { row0 with endYear := "", runtimeMinutes := "" }

/-- A row the sample ingestion outcome rejects. -/
def rowBad : ImdbRow :=
  { row0 with tconst := "bad" }

/-- A sample per-row ingestion outcome: every row succeeds except the
one whose title identifier is the string bad. -/
def ingestSample : ImdbRow → Except Unit Unit :=
  fun r => if r.tconst = "bad" then Except.error () else Except.ok ()

/-- The sample batch: a good row, a failing row, a good row. -/
def rowsSample : List ImdbRow := [row0, rowBad, row0]

/-! ## Property lookups in the emitted records -/

theorem lookup_title (row : ImdbRow) :
    List.lookup "title" (movieProps row) = some (PropValue.str row.primaryTitle) := rfl

theorem lookup_averageRating (row : ImdbRow) :
    List.lookup "averageRating" (movieProps row)
      = some (PropValue.dbl (parseDouble row.averageRating)) := rfl

theorem lookup_numVotes (row : ImdbRow) :
    List.lookup "numVotes" (movieProps row) = some (PropValue.int (parseInt row.numVotes)) := rfl

theorem lookup_isAdult (row : ImdbRow) :
    List.lookup "isAdult" (movieProps row) = some (PropValue.bool (row.isAdult == "1")) := rfl

theorem lookup_startYear (row : ImdbRow) :
    List.lookup "startYear" (movieProps row) = some (PropValue.int (parseInt row.startYear)) := rfl

theorem lookup_endYear (row : ImdbRow) :
    List.lookup "endYear" (movieProps row) =
      some (if jsTruthy row.endYear then
              if row.endYear ≠ "\\N" then PropValue.int (parseInt row.endYear)
              else PropValue.null
            else PropValue.null) := rfl

theorem lookup_runtimeMinutes (row : ImdbRow) :
    List.lookup "runtimeMinutes" (movieProps row) =
      some (if row.runtimeMinutes ≠ "\\N" then PropValue.int (parseInt row.runtimeMinutes)
            else PropValue.null) := rfl

theorem lookup_summary (row : ImdbRow) :
    List.lookup "summary" (movieProps row) =
      some (if jsTruthy row.Plot then PropValue.str row.Plot else PropValue.str "") := rfl

theorem lookup_name (row : ImdbRow) :
    List.lookup "name" (personProps row) = some (PropValue.str row.primaryName) := rfl

theorem lookup_primaryProfession (row : ImdbRow) :
    List.lookup "primaryProfession" (personProps row)
      = some (PropValue.str row.primaryProfession) := rfl

theorem lookup_birthYear (row : ImdbRow) :
    List.lookup "birthYear" (personProps row) = some (PropValue.int (parseInt row.birthYear)) := rfl

theorem lookup_deathYear (row : ImdbRow) :
    List.lookup "deathYear" (personProps row) =
      some (if jsTruthy row.deathYear then
              if row.deathYear ≠ "\\N" then PropValue.int (parseInt row.deathYear)
              else PropValue.null
            else PropValue.null) := rfl

/-! ## Shape of the emitted operation sublists -/

theorem nodeIdsOfType_append (t : String) (a b : List Op) :
    nodeIdsOfType t (a ++ b) = nodeIdsOfType t a ++ nodeIdsOfType t b := by
  simp [nodeIdsOfType, List.filterMap_append]

theorem relTargetsWithLabel_append (l : String) (a b : List Op) :
    relTargetsWithLabel l (a ++ b) = relTargetsWithLabel l a ++ relTargetsWithLabel l b := by
  simp [relTargetsWithLabel, List.filterMap_append]

theorem nodeIdsOfType_node (t T i : String) (p : List (String × PropValue)) :
    nodeIdsOfType t [Op.mergeNode T i p] = if T = t then [i] else [] := by
  simp only [nodeIdsOfType, List.filterMap]
  split <;> simp_all

theorem nodeIdsOfType_rel (t S si T2 ti l : String) :
    nodeIdsOfType t [Op.mergeRelationship S si T2 ti l] = [] := rfl

theorem relTargetsWithLabel_node (l T i : String) (p : List (String × PropValue)) :
    relTargetsWithLabel l [Op.mergeNode T i p] = [] := rfl

theorem relTargetsWithLabel_rel (l S si T2 ti l2 : String) :
    relTargetsWithLabel l [Op.mergeRelationship S si T2 ti l2] = if l2 = l then [ti] else [] := by
  simp only [relTargetsWithLabel, List.filterMap]
  split <;> simp_all

theorem nodeIdsOfType_cons_node (t T i : String) (p : List (String × PropValue)) (rest : List Op) :
    nodeIdsOfType t (Op.mergeNode T i p :: rest) =
      (if T = t then [i] else []) ++ nodeIdsOfType t rest := by
  simp only [nodeIdsOfType, List.filterMap]
  split <;> simp_all

theorem nodeIdsOfType_cons_rel (t S si T2 ti l : String) (rest : List Op) :
    nodeIdsOfType t (Op.mergeRelationship S si T2 ti l :: rest) = nodeIdsOfType t rest := rfl

theorem relTargetsWithLabel_cons_node (l T i : String) (p : List (String × PropValue))
    (rest : List Op) :
    relTargetsWithLabel l (Op.mergeNode T i p :: rest) = relTargetsWithLabel l rest := rfl

theorem relTargetsWithLabel_cons_rel (l S si T2 ti l2 : String) (rest : List Op) :
    relTargetsWithLabel l (Op.mergeRelationship S si T2 ti l2 :: rest) =
      (if l2 = l then [ti] else []) ++ relTargetsWithLabel l rest := by
  simp only [relTargetsWithLabel, List.filterMap]
  split <;> simp_all

/-- Node identifiers emitted by the per-token node-and-relationship loop
pattern used for genres and for professions. -/
theorem nodeIdsOfType_pair_chunk (t T S src lbl : String) (gs : List String) :
    nodeIdsOfType t (gs.flatMap fun g =>
      [Op.mergeNode T g [], Op.mergeRelationship S src T g lbl]) =
      if T = t then gs else [] := by
  induction gs with
  | nil => split <;> rfl
  | cons g gs ih =>
    rw [List.flatMap_cons,
      show ([Op.mergeNode T g [], Op.mergeRelationship S src T g lbl] : List Op)
        = [Op.mergeNode T g []] ++ [Op.mergeRelationship S src T g lbl] from rfl]
    rw [List.append_assoc, nodeIdsOfType_append, nodeIdsOfType_append, nodeIdsOfType_node,
      nodeIdsOfType_rel, ih]
    split <;> simp

/-- Relationship targets emitted by the per-token node-and-relationship
loop pattern used for genres and for professions. -/
theorem relTargets_pair_chunk (l T S src lbl : String) (gs : List String) :
    relTargetsWithLabel l (gs.flatMap fun g =>
      [Op.mergeNode T g [], Op.mergeRelationship S src T g lbl]) =
      if lbl = l then gs else [] := by
  induction gs with
  | nil => split <;> rfl
  | cons g gs ih =>
    rw [List.flatMap_cons,
      show ([Op.mergeNode T g [], Op.mergeRelationship S src T g lbl] : List Op)
        = [Op.mergeNode T g []] ++ [Op.mergeRelationship S src T g lbl] from rfl]
    rw [List.append_assoc, relTargetsWithLabel_append, relTargetsWithLabel_append,
      relTargetsWithLabel_node, relTargetsWithLabel_rel, ih]
    split <;> simp

/-- The known-for loop emits no node operations. -/
theorem nodeIds_map_chunk (t S src T2 lbl : String) (ts : List String) :
    nodeIdsOfType t (ts.map fun x => Op.mergeRelationship S src T2 x lbl) = [] := by
  induction ts with
  | nil => rfl
  | cons x ts ih => simp [nodeIdsOfType, List.filterMap]

/-- Relationship targets emitted by the relationship-only loop pattern
used for the known-for titles. -/
theorem relTargets_map_chunk (l S src T2 lbl : String) (ts : List String) :
    relTargetsWithLabel l (ts.map fun x => Op.mergeRelationship S src T2 x lbl) =
      if lbl = l then ts else [] := by
  induction ts with
  | nil => split <;> rfl
  | cons x ts ih =>
    rw [List.map_cons,
      show (Op.mergeRelationship S src T2 x lbl ::
              ts.map fun y => Op.mergeRelationship S src T2 y lbl)
        = [Op.mergeRelationship S src T2 x lbl]
            ++ ts.map fun y => Op.mergeRelationship S src T2 y lbl from rfl]
    rw [relTargetsWithLabel_append, relTargetsWithLabel_rel, ih]
    split <;> simp

/-- The Genre node identifiers emitted for a row are exactly the raw
comma-split tokens of its genres field. -/
theorem genreNodeIds_eq (row : ImdbRow) :
    nodeIdsOfType "Genre" (addRowToGraphOps row) = splitComma row.genres := by
  simp [addRowToGraphOps, nodeIdsOfType_append, nodeIdsOfType_cons_node, nodeIdsOfType_cons_rel,
    nodeIdsOfType_pair_chunk, nodeIds_map_chunk]

/-- The IN_GENRE relationship targets emitted for a row are exactly the
raw comma-split tokens of its genres field. -/
theorem genreRelTargets_eq (row : ImdbRow) :
    relTargetsWithLabel "genres" (addRowToGraphOps row) = splitComma row.genres := by
  simp [addRowToGraphOps, relTargetsWithLabel_append, relTargetsWithLabel_cons_node,
    relTargetsWithLabel_cons_rel, relTargets_pair_chunk, relTargets_map_chunk]

/-- The Profession node identifiers emitted for a row are exactly the
raw comma-split tokens of its primaryProfession field. -/
theorem professionNodeIds_eq (row : ImdbRow) :
    nodeIdsOfType "Profession" (addRowToGraphOps row) = splitComma row.primaryProfession := by
  simp [addRowToGraphOps, nodeIdsOfType_append, nodeIdsOfType_cons_node, nodeIdsOfType_cons_rel,
    nodeIdsOfType_pair_chunk, nodeIds_map_chunk]

/-- The HAS_PROFESSION relationship targets emitted for a row are exactly
the raw comma-split tokens of its primaryProfession field. -/
theorem professionRelTargets_eq (row : ImdbRow) :
    relTargetsWithLabel "professions" (addRowToGraphOps row) = splitComma row.primaryProfession := by
  simp [addRowToGraphOps, relTargetsWithLabel_append, relTargetsWithLabel_cons_node,
    relTargetsWithLabel_cons_rel, relTargets_pair_chunk, relTargets_map_chunk]

/-- The KNOWN_FOR relationship targets emitted for a row are exactly the
raw comma-split tokens of its knownForTitles field. -/
theorem knownForRelTargets_eq (row : ImdbRow) :
    relTargetsWithLabel "knownFor" (addRowToGraphOps row) = splitComma row.knownForTitles := by
  simp [addRowToGraphOps, relTargetsWithLabel_append, relTargetsWithLabel_cons_node,
    relTargetsWithLabel_cons_rel, relTargets_pair_chunk, relTargets_map_chunk]

/-! ## C3: tokenization of multi-value fields -/

/-- C3 counterexample: a genres field holding the NULL sentinel is split
into the single token equal to the sentinel, so the row emits one Genre
node whose identifier is the sentinel (and one relationship to it),
not zero. -/
theorem claimC3_counterexample :
    rowSentinelGenres.genres = "\\N"
    ∧ nodeIdsOfType "Genre" (addRowToGraphOps rowSentinelGenres) = ["\\N"]
    ∧ nodeIdsOfType "Genre" (addRowToGraphOps rowSentinelGenres) ≠ []
    ∧ relTargetsWithLabel "genres" (addRowToGraphOps rowSentinelGenres) = ["\\N"] := by
  decide

/-- C3 (corrected): each multi-value field is split on commas with no
trimming, no dropping of empty tokens and no sentinel filtering; the
emitted node identifiers and relationship targets are exactly the raw
comma-split tokens, so a sentinel-valued field yields one node and one
relationship whose identifier is the sentinel. -/
theorem claimC3_amended (row : ImdbRow) :
    nodeIdsOfType "Genre" (addRowToGraphOps row) = splitComma row.genres
    ∧ relTargetsWithLabel "genres" (addRowToGraphOps row) = splitComma row.genres
    ∧ nodeIdsOfType "Profession" (addRowToGraphOps row) = splitComma row.primaryProfession
    ∧ relTargetsWithLabel "professions" (addRowToGraphOps row) = splitComma row.primaryProfession
    ∧ relTargetsWithLabel "knownFor" (addRowToGraphOps row) = splitComma row.knownForTitles :=
  ⟨genreNodeIds_eq row, genreRelTargets_eq row, professionNodeIds_eq row,
   professionRelTargets_eq row, knownForRelTargets_eq row⟩

/-! ## C4: duplicate tokens are not collapsed -/

/-- C4 counterexample: the genres field Comedy,Drama,Comedy yields three
Genre node operations and three IN_GENRE relationship operations, not
two. -/
theorem claimC4_counterexample :
    rowDupGenres.genres = "Comedy,Drama,Comedy"
    ∧ nodeIdsOfType "Genre" (addRowToGraphOps rowDupGenres) = ["Comedy", "Drama", "Comedy"]
    ∧ (nodeIdsOfType "Genre" (addRowToGraphOps rowDupGenres)).length ≠ 2
    ∧ (relTargetsWithLabel "genres" (addRowToGraphOps rowDupGenres)).length ≠ 2 := by
  decide

/-- C4 (corrected): extraction does not deduplicate: every token
occurrence of a multi-value field, duplicates included, produces its own
node operation and relationship operation, so the operation counts equal
the raw token count of the field. -/
theorem claimC4_amended (row : ImdbRow) :
    (nodeIdsOfType "Genre" (addRowToGraphOps row)).length = (splitComma row.genres).length
    ∧ (relTargetsWithLabel "genres" (addRowToGraphOps row)).length
        = (splitComma row.genres).length :=
  ⟨congrArg List.length (genreNodeIds_eq row), congrArg List.length (genreRelTargets_eq row)⟩

/-! ## C2: sentinel handling of numeric fields -/

/-- C2 counterexample: on a row whose startYear field holds the NULL
sentinel, the emitted startYear property is the integer 0, not null, so
the claim that every sentinel-valued integer or double field is emitted
as null is false. -/
theorem claimC2_counterexample :
    rowSentinelNums.startYear = "\\N"
    ∧ List.lookup "startYear" (movieProps rowSentinelNums) = some (PropValue.int 0)
    ∧ List.lookup "startYear" (movieProps rowSentinelNums) ≠ some PropValue.null := by
  decide

/-- C2 (corrected): only the optional numeric fields endYear, deathYear
and runtimeMinutes map the NULL sentinel to null; the required numeric
fields startYear, birthYear and numVotes and the double field
averageRating map the sentinel to 0. -/
theorem claimC2_amended (row : ImdbRow) :
    (row.startYear = "\\N" →
      List.lookup "startYear" (movieProps row) = some (PropValue.int 0))
    ∧ (row.birthYear = "\\N" →
      List.lookup "birthYear" (personProps row) = some (PropValue.int 0))
    ∧ (row.numVotes = "\\N" →
      List.lookup "numVotes" (movieProps row) = some (PropValue.int 0))
    ∧ (row.averageRating = "\\N" →
      List.lookup "averageRating" (movieProps row) = some (PropValue.dbl (JsFloat.finite 0)))
    ∧ (row.endYear = "\\N" →
      List.lookup "endYear" (movieProps row) = some PropValue.null)
    ∧ (row.deathYear = "\\N" →
      List.lookup "deathYear" (personProps row) = some PropValue.null)
    ∧ (row.runtimeMinutes = "\\N" →
      List.lookup "runtimeMinutes" (movieProps row) = some PropValue.null) := by
  refine ⟨fun h => ?_, fun h => ?_, fun h => ?_, fun h => ?_, fun h => ?_,
    fun h => ?_, fun h => ?_⟩
  · rw [lookup_startYear, h]; rfl
  · rw [lookup_birthYear, h]; rfl
  · rw [lookup_numVotes, h]; rfl
  · rw [lookup_averageRating, h]; rfl
  · rw [lookup_endYear, h]; rfl
  · rw [lookup_deathYear, h]; rfl
  · rw [lookup_runtimeMinutes, h]; rfl

/-- C2 witness: the amended statement evaluated on the all-sentinel row. -/
theorem claimC2_witness :
    List.lookup "startYear" (movieProps rowSentinelNums) = some (PropValue.int 0)
    ∧ List.lookup "birthYear" (personProps rowSentinelNums) = some (PropValue.int 0)
    ∧ List.lookup "numVotes" (movieProps rowSentinelNums) = some (PropValue.int 0)
    ∧ List.lookup "averageRating" (movieProps rowSentinelNums)
        = some (PropValue.dbl (JsFloat.finite 0))
    ∧ List.lookup "endYear" (movieProps rowSentinelNums) = some PropValue.null
    ∧ List.lookup "deathYear" (personProps rowSentinelNums) = some PropValue.null
    ∧ List.lookup "runtimeMinutes" (movieProps rowSentinelNums) = some PropValue.null := by
  have h := claimC2_amended rowSentinelNums
  exact ⟨h.1 rfl, h.2.1 rfl, h.2.2.1 rfl, h.2.2.2.1 rfl, h.2.2.2.2.1 rfl,
    h.2.2.2.2.2.1 rfl, h.2.2.2.2.2.2 rfl⟩

/-! ## C7: sentinel handling of string fields -/

/-- C7 counterexample: a sentinel-valued string field passes through as
the literal sentinel string, not as null, and an absent Plot column is
coerced to the empty string for the summary property. -/
theorem claimC7_counterexample :
    rowSentinelStrings.primaryTitle = "\\N"
    ∧ List.lookup "title" (movieProps rowSentinelStrings) ≠ some PropValue.null
    ∧ rowSentinelStrings.Plot = ""
    ∧ List.lookup "summary" (movieProps rowSentinelStrings) = some (PropValue.str "") := by
  decide

/-- C7 (corrected): string-typed fields pass through unchanged, the NULL
sentinel included (it is emitted as the two-character string rather than
null), and a falsy Plot column is coerced to the empty string for the
summary property. -/
theorem claimC7_amended (row : ImdbRow) :
    List.lookup "title" (movieProps row) = some (PropValue.str row.primaryTitle)
    ∧ List.lookup "name" (personProps row) = some (PropValue.str row.primaryName)
    ∧ List.lookup "primaryProfession" (personProps row)
        = some (PropValue.str row.primaryProfession)
    ∧ (row.Plot = "" →
        List.lookup "summary" (movieProps row) = some (PropValue.str ""))
    ∧ (row.Plot ≠ "" →
        List.lookup "summary" (movieProps row) = some (PropValue.str row.Plot)) := by
  refine ⟨rfl, rfl, rfl, fun h => ?_, fun h => ?_⟩
  · rw [lookup_summary, h]; rfl
  · rw [lookup_summary]
    simp [jsTruthy, h]

/-- C7 witness: the amended statement evaluated on concrete rows, one
with an absent Plot column and one with a present one. -/
theorem claimC7_witness :
    List.lookup "title" (movieProps rowSentinelStrings) = some (PropValue.str "\\N")
    ∧ List.lookup "summary" (movieProps rowSentinelStrings) = some (PropValue.str "")
    ∧ List.lookup "summary" (movieProps row0) = some (PropValue.str "A plot.") := by
  refine ⟨(claimC7_amended rowSentinelStrings).1, ?_, ?_⟩
  · exact (claimC7_amended rowSentinelStrings).2.2.2.1 rfl
  · exact (claimC7_amended row0).2.2.2.2 (by decide)

/-! ## C8: the adult flag -/

/-- C8 (confirmed): the emitted isAdult property is the boolean true
exactly when the raw isAdult field is the literal string 1; every other
value, the NULL sentinel included, yields false. -/
theorem claimC8_isAdult (row : ImdbRow) :
    List.lookup "isAdult" (movieProps row) = some (PropValue.bool true)
      ↔ row.isAdult = "1" := by
  rw [lookup_isAdult]
  simp

/-! ## C9: total, lenient numeric normalizers -/

/-- C9 (confirmed): on a string that is not the NULL sentinel and from
which the JavaScript numeric parser extracts no number, parseInt and
parseDouble return the zero value; both normalizers are total Lean
functions, so no input raises an error. -/
theorem claimC9_lenientParsing (s : String) (_hs : s ≠ "\\N") :
    (jsParseIntOpt s = none → parseInt s = 0)
    ∧ (jsParseFloatOpt s = none → parseDouble s = JsFloat.finite 0) := by
  refine ⟨fun h => ?_, fun h => ?_⟩
  · rw [parseInt, h]; rfl
  · rw [parseDouble, h]; rfl

/-- C9 witness: the non-numeric string abc parses to the zero values. -/
theorem claimC9_witness :
    parseInt "abc" = 0 ∧ parseDouble "abc" = JsFloat.finite 0 :=
  ⟨(claimC9_lenientParsing "abc" (by decide)).1 rfl,
   (claimC9_lenientParsing "abc" (by decide)).2 rfl⟩

/-! ## C10: empty-string handling of the optional numeric movie fields -/

/-- C10 (confirmed): an empty endYear field is falsy and yields null,
while an empty runtimeMinutes field differs from the sentinel and is
parsed, yielding the integer 0 — the two optional numeric movie fields
treat the empty string inconsistently. -/
theorem claimC10_emptyString (row : ImdbRow) :
    (row.endYear = "" →
      List.lookup "endYear" (movieProps row) = some PropValue.null)
    ∧ (row.runtimeMinutes = "" →
      List.lookup "runtimeMinutes" (movieProps row) = some (PropValue.int 0)) := by
  refine ⟨fun h => ?_, fun h => ?_⟩
  · rw [lookup_endYear, h]; rfl
  · rw [lookup_runtimeMinutes, h]; rfl

/-- C10 witness: the statement evaluated on a row with empty optional
numeric fields. -/
theorem claimC10_witness :
    List.lookup "endYear" (movieProps rowEmptyNums) = some PropValue.null
    ∧ List.lookup "runtimeMinutes" (movieProps rowEmptyNums) = some (PropValue.int 0) :=
  ⟨(claimC10_emptyString rowEmptyNums).1 rfl, (claimC10_emptyString rowEmptyNums).2 rfl⟩

/-! ## C5: endpoint ordering inside the emitted sequence -/

theorem seenAfter_mem (ops : List Op) (seen : List (String × String))
    (x : String × String) (h : x ∈ seen) : x ∈ seenAfter ops seen := by
  induction ops generalizing seen with
  | nil => exact h
  | cons op rest ih =>
    cases op with
    | mergeNode t i p => exact ih ((t, i) :: seen) (List.mem_cons_of_mem _ h)
    | mergeRelationship a b c d e => exact ih seen h

theorem checker_append (a b : List Op) (seen : List (String × String)) :
    relEndpointsOrderedExceptKnownFor (a ++ b) seen =
      (relEndpointsOrderedExceptKnownFor a seen
        && relEndpointsOrderedExceptKnownFor b (seenAfter a seen)) := by
  induction a generalizing seen with
  | nil => simp [relEndpointsOrderedExceptKnownFor, seenAfter]
  | cons op rest ih =>
    cases op with
    | mergeNode t i p =>
      simp only [List.cons_append, relEndpointsOrderedExceptKnownFor, seenAfter,
        List.append_eq]
      exact ih _
    | mergeRelationship st si tt ti l =>
      simp only [List.cons_append, relEndpointsOrderedExceptKnownFor, seenAfter,
        List.append_eq]
      rw [ih]
      cases relEndpointsOrderedExceptKnownFor rest seen <;> simp

/-- The per-token node-and-relationship loop pattern keeps endpoints
ordered as long as the relationship source node was already emitted. -/
theorem pair_chunk_ordered (T S src lbl : String) (gs : List String)
    (seen : List (String × String)) (h : (S, src) ∈ seen) :
    relEndpointsOrderedExceptKnownFor
      (gs.flatMap fun g => [Op.mergeNode T g [], Op.mergeRelationship S src T g lbl]) seen
      = true := by
  induction gs generalizing seen with
  | nil => rfl
  | cons g gs ih =>
    simp only [List.flatMap_cons, List.cons_append, relEndpointsOrderedExceptKnownFor,
      List.singleton_append, List.nil_append, List.append_eq]
    have hs : (S, src) ∈ ((T, g) :: seen) := List.mem_cons_of_mem _ h
    have ht : (T, g) ∈ ((T, g) :: seen) := List.mem_cons_self _ _
    simp [hs, ht]
    exact ih _ hs

/-- The known-for loop keeps the relaxed ordering as long as the
relationship source node was already emitted. -/
theorem kf_chunk_ordered (S src T2 : String) (ts : List String)
    (seen : List (String × String)) (h : (S, src) ∈ seen) :
    relEndpointsOrderedExceptKnownFor
      (ts.map fun x => Op.mergeRelationship S src T2 x "knownFor") seen = true := by
  induction ts with
  | nil => rfl
  | cons x ts ih =>
    simp only [List.map_cons, relEndpointsOrderedExceptKnownFor]
    rw [ih]
    simp [h]

/-- C5 counterexample: on a row whose known-for list names a title other
than the row's own, the KNOWN_FOR relationship has no node-creation
operation for its target anywhere in the sequence, so the full
endpoint-ordering check fails. -/
theorem claimC5_counterexample :
    rowForeignKnownFor.knownForTitles = "tt0000009"
    ∧ rowForeignKnownFor.tconst = "tt0000001"
    ∧ relTargetsWithLabel "knownFor" (addRowToGraphOps rowForeignKnownFor) = ["tt0000009"]
    ∧ relEndpointsOrdered (addRowToGraphOps rowForeignKnownFor) [] = false := by
  decide

/-- C5 (corrected): in the sequence emitted for any row, every
relationship's source node operation, and the target node operation of
every relationship other than the KNOWN_FOR ones, appear earlier than
the relationship operation; a KNOWN_FOR relationship's target node is
never emitted by the row itself. -/
theorem claimC5_amended (row : ImdbRow) :
    relEndpointsOrderedExceptKnownFor (addRowToGraphOps row) [] = true := by
  have hmov : (("Movie", row.tconst) : String × String) ∈ [("Movie", row.tconst)] :=
    List.mem_singleton.mpr rfl
  have hmov2 : (("Movie", row.tconst) : String × String) ∈
      (("Person", row.nconst) :: seenAfter
        ((splitComma row.genres).flatMap fun g =>
          [Op.mergeNode "Genre" g [], Op.mergeRelationship "Movie" row.tconst "Genre" g "genres"])
        [("Movie", row.tconst)]) :=
    List.mem_cons_of_mem _ (seenAfter_mem _ _ _ hmov)
  have hper : (("Person", row.nconst) : String × String) ∈
      (("Person", row.nconst) :: seenAfter
        ((splitComma row.genres).flatMap fun g =>
          [Op.mergeNode "Genre" g [], Op.mergeRelationship "Movie" row.tconst "Genre" g "genres"])
        [("Movie", row.tconst)]) :=
    List.mem_cons_self _ _
  rw [addRowToGraphOps]
  simp only [List.append_assoc, List.singleton_append, List.cons_append, List.nil_append]
  simp only [relEndpointsOrderedExceptKnownFor]
  rw [checker_append, pair_chunk_ordered "Genre" "Movie" row.tconst "genres" _ _ hmov,
    Bool.true_and]
  simp only [relEndpointsOrderedExceptKnownFor]
  rw [checker_append, kf_chunk_ordered _ _ _ _ _ hper, Bool.true_and,
    pair_chunk_ordered "Profession" "Person" row.nconst "professions" _ _
      (seenAfter_mem _ _ _ hper)]
  simp [hmov2, hper]

/-! ## C1: idempotence of ingesting a row -/

theorem applyOps_nodes (ops : List Op) :
    ∀ (s : GraphStore) (t i : String),
      (applyOps ops s).nodes t i =
        (match lastNodeWrite ops t i with
         | some p => some p
         | none => s.nodes t i) := by
  induction ops with
  | nil => intro s t i; rfl
  | cons op rest ih =>
    intro s t i
    show (applyOps rest (applyOp s op)).nodes t i = _
    rw [ih]
    cases hl : lastNodeWrite rest t i with
    | some p => simp [lastNodeWrite, hl]
    | none =>
      cases op with
      | mergeNode t2 i2 p =>
        simp only [lastNodeWrite, hl, applyOp]
        by_cases hc : t = t2 ∧ i = i2
        · simp [hc]
        · simp [hc]
      | mergeRelationship a b c d e =>
        simp [lastNodeWrite, hl, applyOp]

theorem applyOps_rels (ops : List Op) :
    ∀ (s : GraphStore) (a b c d e : String),
      (applyOps ops s).rels a b c d e =
        (relWritten ops a b c d e || s.rels a b c d e) := by
  induction ops with
  | nil => intro s a b c d e; rfl
  | cons op rest ih =>
    intro s a b c d e
    show (applyOps rest (applyOp s op)).rels a b c d e = _
    rw [ih]
    cases op with
    | mergeNode t2 i2 p =>
      simp [relWritten, applyOp]
    | mergeRelationship st si tt ti l =>
      simp only [relWritten, applyOp]
      by_cases hc : (a, b, c, d, e) = (st, si, tt, ti, l)
      · simp [hc]
      · simp [hc]

/-- Replaying any operation sequence over its own result changes
nothing: every node key ends up holding the record of its last write and
every relationship key its flag, independent of the starting store. -/
theorem applyOps_idem (ops : List Op) (s : GraphStore) :
    applyOps ops (applyOps ops s) = applyOps ops s := by
  have hn : ∀ t i, (applyOps ops (applyOps ops s)).nodes t i = (applyOps ops s).nodes t i := by
    intro t i
    rw [applyOps_nodes, applyOps_nodes]
    cases lastNodeWrite ops t i <;> simp
  have hr : ∀ a b c d e,
      (applyOps ops (applyOps ops s)).rels a b c d e = (applyOps ops s).rels a b c d e := by
    intro a b c d e
    rw [applyOps_rels, applyOps_rels]
    cases relWritten ops a b c d e <;> simp
  cases h1 : applyOps ops (applyOps ops s) with
  | mk n1 r1 =>
    cases h2 : applyOps ops s with
    | mk n2 r2 =>
      have hn2 : n1 = n2 := by
        funext t i
        have := hn t i
        rw [h1, h2] at this
        exact this
      have hr2 : r1 = r2 := by
        funext a b c d e
        have := hr a b c d e
        rw [h1, h2] at this
        exact this
      rw [hn2, hr2]

/-- C1 (confirmed): against a store whose mergeNode and
mergeRelationship are idempotent upserts, ingesting the same row twice
yields exactly the same store as ingesting it once — no duplicate nodes,
no duplicate relationships, identical property values. -/
theorem claimC1_idempotent (row : ImdbRow) (s : GraphStore) :
    ingestRow (ingestRow s row) row = ingestRow s row :=
  applyOps_idem (addRowToGraphOps row) s

/-! ## C6: behaviour of the batch loop on a failing row -/

/-- C6 counterexample: with a three-row batch whose middle row fails,
the loop ingests only the one row before the failure even though two
rows of the batch are ingestible, because the failure propagates out of
the untried loop and the remaining rows are never processed. -/
theorem claimC6_counterexample :
    runAddCount ingestSample rowsSample = (1, some ())
    ∧ (rowsSample.filter fun r => isOkB (ingestSample r)).length = 2
    ∧ (runAddCount ingestSample rowsSample).1
        ≠ (rowsSample.filter fun r => isOkB (ingestSample r)).length := by
  decide

/-- C6 (corrected): the add loop has no per-row error handling: the
first failing row aborts the whole batch with its error, the rows after
it are never ingested, and only the rows before it count as ingested;
no per-row failed count is reported (the run only prints the found
count). -/
theorem claimC6_amended {ε : Type} (ingest : ImdbRow → Except ε Unit)
    (pre : List ImdbRow) (r : ImdbRow) (rest : List ImdbRow) (e : ε)
    (hpre : ∀ x ∈ pre, isOkB (ingest x) = true) (hr : ingest r = Except.error e) :
    runAddCount ingest (pre ++ r :: rest) = (pre.length, some e) := by
  induction pre with
  | nil =>
    simp only [List.nil_append, runAddCount, hr, List.length_nil]
  | cons x pre ih =>
    have hx : isOkB (ingest x) = true := hpre x (List.mem_cons_self _ _)
    have hok : ∃ u, ingest x = Except.ok u := by
      cases hxx : ingest x with
      | ok u => exact ⟨u, rfl⟩
      | error e2 => rw [hxx] at hx; exact absurd hx (by simp [isOkB])
    obtain ⟨u, hu⟩ := hok
    simp only [List.cons_append, runAddCount, hu, List.append_eq]
    rw [ih (fun y hy => hpre y (List.mem_cons_of_mem _ hy))]
    simp

/-- C6 witness: the amended statement evaluated on the concrete sample
batch whose second row fails. -/
theorem claimC6_witness :
    runAddCount ingestSample ([row0] ++ rowBad :: [row0]) = (1, some ()) :=
  claimC6_amended ingestSample [row0] rowBad [row0] () (by decide) rfl

end MovieGraph
